import Mathlib

/-!
Verification of the pdf_scrape integration (custom_components/pdf_scrape).

Shallow embedding of the code in src/custom_components/pdf_scrape:
* `pdf.py`: the `PDFScrape` state, `_process_pdf`, `_load_from_storage`,
  `get_pages`, and `PDFScrapeHTTP.update`.
* `coordinator.py`: `PDFScrapeCoordinator._async_update_data` and the
  per-subentry extraction pipeline, with `async_raise_error` modelled as an
  error value that records the repair issue created and the
  `ConfigEntryError` raised.
* `sensor.py`: `PDFScrapeSensor.native_value`.

Modelling conventions:
* Python strings are modelled as `PyStr := List Char` so that Python
  splitting, slicing and numeral parsing are fully executable.
* `datetime.datetime` values are modelled as `Int` instants;
  `isoformat`/`fromisoformat` round-trip exactly, so the stored "modified"
  entry is kept as an `Option Int` (with `none` for an absent key or a
  stored `None`, where Python `fromisoformat(None)` raises `TypeError`).
* Third-party calls (`PdfReader`, `re.findall`, `Template.async_render`,
  `aiohttp` responses) are inputs: a parsed document, response record, or a
  function parameter; their failure modes are explicit `Except` errors.
* Fallible Python code returns `Except`; each raised exception is a
  distinct error value.
-/

deriving instance DecidableEq for Except

/-- A Python `str` as its character sequence. -/
abbrev PyStr := List Char

/-- Conversion from Lean string literals. -/
def pystr (s : String) : PyStr := s.toList

/-- `ModifiedDateSource` from pdf.py. -/
inductive ModifiedDateSource
  | pdf_metadata
  | http_header
  | file_mtime
  | first_check
  | checksum
  | upload
deriving DecidableEq, Repr

/-- The persisted `StoredFile` dict from pdf.py.  Each field is `none`
when the key is absent (or stored as `None`; the code never writes a bare
`None` for `modified`, `md5_checksum` or `pages`, so the conflation is
harmless for stores this code produces). -/
structure StoredFile where
  modified : Option Int := none
  md5_checksum : Option String := none
  modified_source : Option ModifiedDateSource := none
  pages : Option (List PyStr) := none
deriving DecidableEq, Repr

/-- The empty dict `{}`, which is falsy in Python. -/
def StoredFile.empty : StoredFile := {}

/-- Mutable attribute state of a `PDFScrape` object (pdf.py `__init__`).
`pages` is an `Option` because `_load_from_storage` assigns
`stored_file.get("pages")`, which can be `None`.  `hasStore` models
`self.store is not None`. -/
structure ScrapeState where
  hasStore : Bool
  pages : Option (List PyStr) := some []
  modified : Option Int := none
  modified_source : Option ModifiedDateSource := none
  metadata_name : Option String := none
  md5_checksum : Option String := none
  stored_file : Option StoredFile := none
deriving DecidableEq, Repr

/-- `DocumentInformation` as read by `_process_pdf`: the
`modification_date` and `title` fields of `pdfr.metadata`. -/
structure PdfMetadata where
  modification_date : Option Int := none
  title : Option String := none
deriving DecidableEq, Repr

/-- Result of the third-party `PdfReader` over the byte stream: optional
metadata plus the per-page `extract_text()` outputs. -/
structure ParsedPdf where
  metadata : Option PdfMetadata := none
  page_texts : List PyStr := []
deriving DecidableEq, Repr

/-- Exceptions that can escape the pdf.py methods being modelled. -/
inductive PdfExc
  | httpError
  | pdfParseError
  | typeError
  | keyError
  | attributeError
  | storedFileError
deriving DecidableEq, Repr

/-- `ValueError` as raised inside `get_pages` (including the ones coming
out of `int()`, tuple unpacking and `max()` on an empty set), tagged with
the Python message. -/
inductive PyValueError
  | valueError (msg : String)
deriving DecidableEq, Repr

/-- Python `s.split(sep)` for a single-character separator: split on every
occurrence; `"".split(sep)` is `[""]`. -/
def splitOnChar (c : Char) : PyStr → List PyStr
  | [] => [[]]
  | x :: xs =>
    match splitOnChar c xs with
    | [] => if x = c then [[], []] else [[x]]
    | y :: ys => if x = c then [] :: y :: ys else (x :: y) :: ys

/-- Digits-only numeral parser: `some n` when the characters are a
nonempty run of decimal digits. -/
def digitsToNat : PyStr → Option Nat
  | [] => none
  | [c] => if c.isDigit then some (c.toNat - '0'.toNat) else none
  | c :: cs =>
    if c.isDigit then
      match digitsToNat cs with
      | some n =>
        some ((c.toNat - '0'.toNat) * 10 ^ cs.length + n)
      | none => none
    else none

/-- Python whitespace stripping, as done by `int()`. -/
def stripWs (s : PyStr) : PyStr :=
  ((s.dropWhile Char.isWhitespace).reverse.dropWhile Char.isWhitespace).reverse

/-- Python `int(s)` on a string: an optionally signed decimal numeral with
surrounding whitespace (underscore group separators are not modelled; the
claims quantify over plain numerals). -/
def pyInt (s : PyStr) : Option Int :=
  match stripWs s with
  | '-' :: rest => (digitsToNat rest).map (fun n => -(n : Int))
  | '+' :: rest => (digitsToNat rest).map (fun n => (n : Int))
  | t => (digitsToNat t).map (fun n => (n : Int))

/-- Python `range(start, end + 1)` as a list (empty when `e < s`). -/
def rangeList (s e : Int) : List Int :=
  (List.range (e + 1 - s).toNat).map (fun i => s + i)

/-- One iteration of the `get_pages` loop body on a comma-separated part:
a part containing a dash is split and expanded with
`range(start, end + 1)`; otherwise it is a single `int(part)`.  Errors are
the `ValueError`s Python raises from `int()` and from unpacking a split
that does not have exactly two pieces. -/
def parsePart (part : PyStr) : Except PyValueError (List Int) :=
  if '-' ∈ part then
    match splitOnChar '-' part with
    | [start_str, end_str] =>
      match pyInt start_str, pyInt end_str with
      | some s, some e => .ok (rangeList s e)
      | _, _ => .error (.valueError "invalid literal for int()")
    | _ => .error (.valueError "values to unpack")
  else
    match pyInt part with
    | some n => .ok [n]
    | none => .error (.valueError "invalid literal for int()")

/-- The whole `get_pages` collection loop over the split parts, gathering
every page number mentioned (Python accumulates them into a set;
duplicates are removed later by `List.dedup`, which models the set). -/
def collect_pages : List PyStr → Except PyValueError (List Int)
  | [] => .ok []
  | p :: rest =>
    match parsePart p with
    | .error e => .error e
    | .ok xs =>
      match collect_pages rest with
      | .error e => .error e
      | .ok ys => .ok (xs ++ ys)

/-- Python `max` over a nonempty collection (`none` on the empty one,
where Python raises `ValueError`). -/
def listMax : List Int → Option Int
  | [] => none
  | x :: xs =>
    match listMax xs with
    | none => some x
    | some m => some (max x m)

/-- Python `min` over a nonempty collection. -/
def listMin : List Int → Option Int
  | [] => none
  | x :: xs =>
    match listMin xs with
    | none => some x
    | some m => some (min x m)

/-- `PDFScrape.get_pages` (pdf.py lines 151-164): split the range string
on commas, expand dashes, deduplicate (set semantics), check
`max(page_nums) > len(self.pages) or min(page_nums) < 1`, and join the
selected page texts of `sorted(page_nums)` with a newline.  `pages` is
`self.pages` (a `list[str]` as typed).  Index `page - 1` is in range in
the success branch, so `getD` with a dummy default is exact. -/
def get_pages (pages : List PyStr) (page_range : PyStr) :
    Except PyValueError PyStr :=
  match collect_pages (splitOnChar ',' page_range) with
  | .error e => .error e
  | .ok nums =>
    let pageSet := nums.dedup
    match listMax pageSet, listMin pageSet with
    | some mx, some mn =>
      if mx > (pages.length : Int) ∨ mn < 1 then
        .error (.valueError "Page number out of range")
      else
        .ok (List.intercalate ['\n']
          ((List.insertionSort (· ≤ ·) pageSet).map
            (fun page => pages.getD (page - 1).toNat [])))
    | _, _ => .error (.valueError "max() arg is an empty sequence")

/-- Abstract syntax for one comma-separated part of a well-formed
page-range string: a single decimal page number or a dash range.  This is
the claim-side description of the inputs the spec quantifies over. -/
inductive PagePart
  | num (n : Int)
  | range (a b : Int)
deriving DecidableEq, Repr

/-- The page numbers a part refers to. -/
def PagePart.pageList : PagePart → List Int
  | .num n => [n]
  | .range a b => rangeList a b

/-- The comma-separated part `s` reads as the abstract part `p`:
the loop body accepts it and produces exactly the pages of `p`. -/
def partDenotes (s : PyStr) (p : PagePart) : Prop :=
  parsePart s = .ok p.pageList

instance (s : PyStr) (p : PagePart) : Decidable (partDenotes s p) := by
  unfold partDenotes; infer_instance

/-- All page numbers referenced by a list of parts, in order of
appearance and with repetitions. -/
def refPages : List PagePart → List Int
  | [] => []
  | p :: ps => p.pageList ++ refPages ps

/-- `PDFScrapeSensor.native_value` (sensor.py lines 130-134) over the
underlying character sequence of the target value string. -/
def native_value (value : PyStr) : PyStr :=
  if value.length < 255 then value
  else value.take 242 ++ pystr " <truncated>"

/-- Lines 87-94 of `_process_pdf`: when the reader has metadata, assign
`self.modified = metadata.modification_date` (which may be `None`), set
`self.modified_source = PDF_METADATA`, and on an upload take the title as
`metadata_name`.  The timezone `replace` is the identity in the `Int`
model of instants. -/
def apply_metadata (st : ScrapeState) (pdf : ParsedPdf) (upload : Bool) :
    ScrapeState :=
  match pdf.metadata with
  | none => st
  | some md =>
    { st with
      modified := md.modification_date
      modified_source := some ModifiedDateSource.pdf_metadata
      metadata_name := if upload then md.title else st.metadata_name }

/-- Lines 95-96 of `_process_pdf`: fall back to the alternate timestamp
when the metadata produced no modification date. -/
def apply_alt (st : ScrapeState)
    (alt : Option (Int × ModifiedDateSource)) : ScrapeState :=
  if st.modified = none then
    match alt with
    | some ts => { st with modified := some ts.1, modified_source := some ts.2 }
    | none => st
  else st

/-- Lines 102-107 of `_process_pdf`: the change-detection condition
`self.stored_file and self.modified == fromisoformat(stored["modified"])
and self.md5_checksum == stored.get("md5_checksum")`.  A truthy stored
dict whose "modified" entry is absent makes `fromisoformat(None)` raise
`TypeError`.  Comparing a `datetime` (or `str`) with `None` is plain
inequality in Python, which the `Option` equalities reproduce. -/
def skip_check (st : ScrapeState) (checksum : String) : Except PdfExc Bool :=
  match st.stored_file with
  | none => .ok false
  | some sf =>
    if sf = StoredFile.empty then .ok false
    else
      match sf.modified with
      | none => .error .typeError
      | some m =>
        .ok (decide (st.modified = some m ∧ sf.md5_checksum = some checksum))

/-- The attribute state after lines 87-100 of `_process_pdf`: metadata
and alternate-timestamp assignment followed by storing the computed md5
hex digest in `self.md5_checksum`. -/
def mid_state (st : ScrapeState) (pdf : ParsedPdf) (checksum : String)
    (alt : Option (Int × ModifiedDateSource)) (upload : Bool) : ScrapeState :=
  { apply_alt (apply_metadata st pdf upload) alt with
    md5_checksum := some checksum }

/-- `PDFScrape._process_pdf` (pdf.py lines 77-126).  Inputs replace the
third-party calls: `parsed` is the `PdfReader` outcome over the stream
(`.error` for a `PyPdfError`, re-raised as `PDFParseError`), and
`checksum` is the hex digest the md5 loop computes from the stream.
The result is the updated attribute state, the returned `Bool`, and
`some` new store content exactly when `store.async_save` was called. -/
def process_pdf (st₀ : ScrapeState) (parsed : Except Unit ParsedPdf)
    (checksum : String) (alt_timestamp : Option (Int × ModifiedDateSource))
    (upload : Bool) :
    Except PdfExc (ScrapeState × Bool × Option StoredFile) :=
  match parsed with
  | .error _ => .error .pdfParseError
  | .ok pdf =>
    let st := mid_state st₀ pdf checksum alt_timestamp upload
    match skip_check st checksum with
    | .error e => .error e
    | .ok true => .ok (st, false, none)
    | .ok false =>
      let st2 := { st with pages := some pdf.page_texts }
      if st2.hasStore then
        match st2.modified with
        | none => .error .attributeError
        | some m =>
          let sf₀ := st2.stored_file.getD StoredFile.empty
          let sf : StoredFile :=
            { sf₀ with
              modified := some m
              md5_checksum := some checksum
              modified_source := st2.modified_source
              pages := st2.pages }
          .ok ({ st2 with stored_file := some sf }, true, some sf)
      else .ok (st2, true, none)

/-- `PDFScrape._load_from_storage` (pdf.py lines 128-141).
`storeContent` is what `store.async_load()` yields.  A missing store or an
empty load raises `StoredFileError`; `fromisoformat` of a missing
"modified" entry raises `TypeError`; the `["md5_checksum"]` lookup raises
`KeyError` when absent.  `pages` is assigned the unchecked
`stored_file.get("pages")` cast, so it may become `None`. -/
def load_from_storage (st : ScrapeState) (storeContent : Option StoredFile) :
    Except PdfExc ScrapeState :=
  if st.hasStore then
    match storeContent with
    | some sf =>
      let st1 := { st with stored_file := some sf, pages := sf.pages }
      match sf.modified with
      | none => .error .typeError
      | some m =>
        let st2 := { st1 with
          modified := some m
          modified_source := sf.modified_source }
        match sf.md5_checksum with
        | none => .error .keyError
        | some c => .ok { st2 with md5_checksum := some c }
    | none => .error .storedFileError
  else .error .storedFileError

/-- A successful `aiohttp` GET as consumed by `PDFScrapeHTTP.update`:
the values of the response headers the code looks up (aiohttp header
lookup is case-insensitive, so these are the case-folded keys), the
`PdfReader` outcome over the body, and the md5 digest the hashing loop in
`_process_pdf` computes from the body stream. -/
structure HttpOk where
  late_modified : Option String := none
  last_modified : Option String := none
  parsed : Except Unit ParsedPdf := .ok {}
  checksum : String := ""
deriving DecidableEq

/-- `PDFScrapeHTTP.update` (pdf.py lines 199-224).  `resp` is `.error`
when the GET raises `ClientResponseError`/`ClientConnectorError`, which
the method re-raises as `HTTPError`.  When the (misspelled) header lookup
`headers.get("late-modified")` is truthy, the code calls
`datetime.strptime`, an attribute the `datetime` module does not have, so
that branch raises `AttributeError`; otherwise the alternate timestamp is
`datetime.datetime.now(UTC)` (`now`) with source `FIRST_CHECK`.  On an
unchanged document it reloads state via `_load_from_storage` and returns
`False`.  The third component is the store content after the call. -/
def http_update (st : ScrapeState) (storeContent : Option StoredFile)
    (resp : Except Unit HttpOk) (now : Int) :
    Except PdfExc (ScrapeState × Bool × Option StoredFile) :=
  match resp with
  | .error _ => .error .httpError
  | .ok r =>
    if (r.late_modified.getD "") ≠ "" then .error .attributeError
    else
      match process_pdf st r.parsed r.checksum
          (some (now, ModifiedDateSource.first_check)) false with
      | .error e => .error e
      | .ok (st1, true, save) =>
        .ok (st1, true, match save with | some s => some s | none => storeContent)
      | .ok (st1, false, _) =>
        match load_from_storage st1 storeContent with
        | .error e => .error e
        | .ok st2 => .ok (st2, false, storeContent)

/-- A value flowing through the coordinator pipeline: the variable `txt`
in `_async_update_data` holds a `str`, except that a regex match index of
`"-1"` rebinds it to the whole list of matches. -/
inductive ScrapeValue
  | str (s : PyStr)
  | list (xs : List PyStr)
deriving DecidableEq, Repr

/-- The per-target configuration read from a `ConfigSubentry` (const.py
keys `pdf_pages`, `regex_search`, `regex_match_index`, `value_template`).
`none` models an absent key. -/
structure SubentryConf where
  pdf_pages : PyStr
  regex_search : Option PyStr := none
  regex_match_index : Option PyStr := none
  value_template : Option PyStr := none
deriving DecidableEq, Repr

/-- How `_async_update_data` terminates abnormally.
`config_entry_error key sub` models a completed `async_raise_error` call
(coordinator.py lines 199-249): a repair issue with `error_key = key` is
created (for the subentry `sub` when given), after which a
`ConfigEntryError` with that translation key is raised.  The `uncaught`
constructors are exceptions that escape `_async_update_data` unhandled:
the outer `try` catches only `HTTPError` and `PDFParseError`. -/
inductive CoordFailure
  | config_entry_error (error_key : String) (subentry_id : Option String)
  | uncaught_pdf_exc (e : PdfExc)
  | uncaught_value_error (msg : String)
  | uncaught_index_error
  | uncaught_key_error
deriving DecidableEq, Repr

/-- Error keys from `ErrorTypes` in const.py (plus the literal
`"no_matches"` used at coordinator.py line 95). -/
def pdf_error_key : String := "pdf_error"

/-- `ErrorTypes.PATTERN_ERROR`. -/
def pattern_error_key : String := "pattern_error"

/-- `ErrorTypes.TEMPLATE_ERROR`. -/
def template_error_key : String := "template_error"

/-- `ErrorTypes.NO_MATCHES` / the literal key at line 95. -/
def no_matches_key : String := "no_matches"

/-- Python `matches[i]` on a list: non-negative indexes from the front,
negative indexes from the back, `none` for the `IndexError` cases. -/
def pyListGet (xs : List PyStr) (i : Int) : Option PyStr :=
  if 0 ≤ i then xs.get? i.toNat
  else if 0 ≤ (xs.length : Int) + i then xs.get? ((xs.length : Int) + i).toNat
  else none

/-- Coordinator lines 102-107: the match-index selection applied to a
nonempty `matches` list.  An index string other than `"-1"` is parsed
with `int()` (a `ValueError` there is uncaught) and indexes the list (an
`IndexError` there is uncaught: the surrounding `try` catches only
`re.PatternError`); the index `"-1"` keeps the whole list. -/
def index_select (idx : PyStr) (ms : List PyStr) :
    Except CoordFailure ScrapeValue :=
  if idx ≠ pystr "-1" then
    match pyInt idx with
    | none => .error (.uncaught_value_error "invalid literal for int()")
    | some i =>
      match pyListGet ms i with
      | none => .error .uncaught_index_error
      | some m => .ok (.str m)
  else .ok (.list ms)

/-- The body of the subentry loop in `_async_update_data` (coordinator.py
lines 73-136, without the final `self.data` assignment), for the subentry
with id `key` and configuration `conf`.

* `findall pat txt` is `re.findall(pat, txt)`; `.error` is
  `re.PatternError`, handled by `async_raise_error(PATTERN_ERROR, ...)`.
* `render tpl value` is `Template(tpl, hass).async_render({"value": value},
  parse_result=False)`; `.error` is `TemplateError`, handled by
  `async_raise_error(TEMPLATE_ERROR, ...)`.
* `pages` is `self.pdf.pages`.

The `try/except IndexError` around `get_pages` is dead code: `get_pages`
raises only `ValueError`, which that handler does not match, so the error
escapes `_async_update_data` (the outer `try` catches only `HTTPError`
and `PDFParseError`).  Both `.get` truthiness tests treat an absent key
and an empty string the same way. -/
def compute_subentry
    (findall : PyStr → PyStr → Except Unit (List PyStr))
    (render : PyStr → ScrapeValue → Except Unit PyStr)
    (pages : List PyStr) (key : String) (conf : SubentryConf) :
    Except CoordFailure ScrapeValue :=
  match get_pages pages conf.pdf_pages with
  | .error (.valueError msg) => .error (.uncaught_value_error msg)
  | .ok txt =>
    let afterRegex : Except CoordFailure ScrapeValue :=
      if (conf.regex_search.getD []) ≠ [] then
        match findall (conf.regex_search.getD []) txt with
        | .error _ => .error (.config_entry_error pattern_error_key (some key))
        | .ok ms =>
          if ms = [] then
            .error (.config_entry_error no_matches_key (some key))
          else
            match conf.regex_match_index with
            | none => .error .uncaught_key_error
            | some idx => index_select idx ms
      else .ok (.str txt)
    match afterRegex with
    | .error e => .error e
    | .ok v =>
      if (conf.value_template.getD []) ≠ [] then
        match render (conf.value_template.getD []) v with
        | .error _ => .error (.config_entry_error template_error_key (some key))
        | .ok s => .ok (.str s)
      else .ok v

/-- `self.data[subentry_conf_key] = txt`: dict assignment, modelled so
that the updated key is looked up first (iteration order of the dict is
irrelevant to the claims). -/
def dict_set (d : List (String × ScrapeValue)) (k : String) (v : ScrapeValue) :
    List (String × ScrapeValue) :=
  (k, v) :: d.filter (fun kv => kv.1 ≠ k)

/-- The subentry loop of `_async_update_data` (coordinator.py lines
68-136): process each subentry in turn, storing each result in the data
dict; any exception aborts the loop. -/
def update_subentries
    (findall : PyStr → PyStr → Except Unit (List PyStr))
    (render : PyStr → ScrapeValue → Except Unit PyStr)
    (pages : List PyStr) :
    List (String × SubentryConf) → List (String × ScrapeValue) →
    Except CoordFailure (List (String × ScrapeValue))
  | [], data => .ok data
  | (key, conf) :: rest, data =>
    match compute_subentry findall render pages key conf with
    | .error e => .error e
    | .ok v => update_subentries findall render pages rest (dict_set data key v)

/-- `PDFScrapeCoordinator._async_update_data` (coordinator.py lines
64-145).  `data` is `self.data`; `subs` the subentries of the config
entry; `upd` the outcome of `await self.pdf.update()` (consulted only
when `self.data` is truthy, because `not self.data or ...`
short-circuits).  `HTTPError` and `PDFParseError` — whether from
`update()` or anywhere else in the `try` — are handled by
`async_raise_error(ErrorTypes.PDF_ERROR, ...)`; every other exception
escapes. -/
def async_update_data
    (findall : PyStr → PyStr → Except Unit (List PyStr))
    (render : PyStr → ScrapeValue → Except Unit PyStr)
    (pages : List PyStr) (subs : List (String × SubentryConf))
    (data : List (String × ScrapeValue)) (upd : Except PdfExc Bool) :
    Except CoordFailure (List (String × ScrapeValue)) :=
  if data = [] then update_subentries findall render pages subs data
  else
    match upd with
    | .error .httpError => .error (.config_entry_error pdf_error_key none)
    | .error .pdfParseError => .error (.config_entry_error pdf_error_key none)
    | .error e => .error (.uncaught_pdf_exc e)
    | .ok true => update_subentries findall render pages subs data
    | .ok false => .ok data

section Helpers

variable {st : ScrapeState} {pdf : ParsedPdf} {u : Bool}
variable {alt : Option (Int × ModifiedDateSource)}

lemma apply_metadata_stored_file :
    (apply_metadata st pdf u).stored_file = st.stored_file := by
  obtain ⟨md, tx⟩ := pdf; cases md <;> simp [apply_metadata]

lemma apply_metadata_pages : (apply_metadata st pdf u).pages = st.pages := by
  obtain ⟨md, tx⟩ := pdf; cases md <;> simp [apply_metadata]

lemma apply_metadata_hasStore :
    (apply_metadata st pdf u).hasStore = st.hasStore := by
  obtain ⟨md, tx⟩ := pdf; cases md <;> simp [apply_metadata]

lemma apply_alt_stored_file :
    (apply_alt st alt).stored_file = st.stored_file := by
  unfold apply_alt
  split
  · cases alt <;> rfl
  · rfl

lemma apply_alt_pages : (apply_alt st alt).pages = st.pages := by
  unfold apply_alt
  split
  · cases alt <;> rfl
  · rfl

lemma apply_alt_hasStore : (apply_alt st alt).hasStore = st.hasStore := by
  unfold apply_alt
  split
  · cases alt <;> rfl
  · rfl

variable {c : String}

lemma mid_state_stored_file :
    (mid_state st pdf c alt u).stored_file = st.stored_file := by
  show (apply_alt (apply_metadata st pdf u) alt).stored_file = st.stored_file
  rw [apply_alt_stored_file, apply_metadata_stored_file]

lemma mid_state_pages : (mid_state st pdf c alt u).pages = st.pages := by
  show (apply_alt (apply_metadata st pdf u) alt).pages = st.pages
  rw [apply_alt_pages, apply_metadata_pages]

lemma mid_state_hasStore :
    (mid_state st pdf c alt u).hasStore = st.hasStore := by
  show (apply_alt (apply_metadata st pdf u) alt).hasStore = st.hasStore
  rw [apply_alt_hasStore, apply_metadata_hasStore]

lemma mid_state_modified :
    (mid_state st pdf c alt u).modified =
      (apply_alt (apply_metadata st pdf u) alt).modified := rfl

lemma mid_state_md5 : (mid_state st pdf c alt u).md5_checksum = some c := rfl

lemma listMax_eq_none {l : List Int} : listMax l = none ↔ l = [] := by
  cases l with
  | nil => simp [listMax]
  | cons x xs => cases h : listMax xs <;> simp [listMax, h]

lemma listMin_eq_none {l : List Int} : listMin l = none ↔ l = [] := by
  cases l with
  | nil => simp [listMin]
  | cons x xs => cases h : listMin xs <;> simp [listMin, h]

lemma listMax_mem {l : List Int} {m : Int} (h : listMax l = some m) :
    m ∈ l := by
  induction l generalizing m with
  | nil => cases h
  | cons x xs ih =>
    cases hx : listMax xs with
    | none =>
      rw [listMax, hx] at h
      simp only [Option.some.injEq] at h
      simp [h.symm]
    | some mm =>
      rw [listMax, hx] at h
      simp only [Option.some.injEq] at h
      rcases max_choice x mm with h1 | h1
      · simp [← h, h1]
      · have := ih hx
        rw [← h, h1]
        exact List.mem_cons_of_mem x this

lemma listMin_mem {l : List Int} {m : Int} (h : listMin l = some m) :
    m ∈ l := by
  induction l generalizing m with
  | nil => cases h
  | cons x xs ih =>
    cases hx : listMin xs with
    | none =>
      rw [listMin, hx] at h
      simp only [Option.some.injEq] at h
      simp [h.symm]
    | some mm =>
      rw [listMin, hx] at h
      simp only [Option.some.injEq] at h
      rcases min_choice x mm with h1 | h1
      · simp [← h, h1]
      · have := ih hx
        rw [← h, h1]
        exact List.mem_cons_of_mem x this

lemma le_listMax {l : List Int} {x m : Int} (hx : x ∈ l)
    (h : listMax l = some m) : x ≤ m := by
  induction l generalizing m with
  | nil => cases hx
  | cons y ys ih =>
    cases hy : listMax ys with
    | none =>
      have : ys = [] := listMax_eq_none.mp hy
      subst this
      rw [listMax, hy] at h
      simp only [Option.some.injEq] at h
      rcases List.mem_cons.mp hx with h1 | h1
      · rw [← h, h1]
      · cases h1
    | some mm =>
      rw [listMax, hy] at h
      simp only [Option.some.injEq] at h
      rcases List.mem_cons.mp hx with h1 | h1
      · rw [← h, h1]; exact le_max_left _ _
      · have := ih h1 hy
        rw [← h]
        exact this.trans (le_max_right _ _)

lemma listMin_le {l : List Int} {x m : Int} (hx : x ∈ l)
    (h : listMin l = some m) : m ≤ x := by
  induction l generalizing m with
  | nil => cases hx
  | cons y ys ih =>
    cases hy : listMin ys with
    | none =>
      have : ys = [] := listMin_eq_none.mp hy
      subst this
      rw [listMin, hy] at h
      simp only [Option.some.injEq] at h
      rcases List.mem_cons.mp hx with h1 | h1
      · rw [← h, h1]
      · cases h1
    | some mm =>
      rw [listMin, hy] at h
      simp only [Option.some.injEq] at h
      rcases List.mem_cons.mp hx with h1 | h1
      · rw [← h, h1]; exact min_le_left _ _
      · have := ih h1 hy
        rw [← h]
        exact (min_le_right _ _).trans this

lemma collect_pages_denotes {parts : List PyStr} {ps : List PagePart}
    (h : List.Forall₂ partDenotes parts ps) :
    collect_pages parts = .ok (refPages ps) := by
  induction h with
  | nil => rfl
  | cons h₁ _ ih =>
    unfold partDenotes at h₁
    simp [collect_pages, h₁, ih, refPages]

lemma refPages_mem_dedup {ps : List PagePart} {n : Int} :
    n ∈ (refPages ps).dedup ↔ n ∈ refPages ps := List.mem_dedup

end Helpers

/-- C10: the scrape sensor state is the target value unchanged when it is
shorter than 255 characters, and otherwise its first 242 characters
followed by " &lt;truncated&gt;"; either way at most 254 characters. -/
theorem c10_native_value_truncation (value : PyStr) :
    (value.length < 255 → native_value value = value) ∧
    (255 ≤ value.length →
      native_value value = value.take 242 ++ pystr " <truncated>") ∧
    (native_value value).length ≤ 254 := by
  by_cases h : value.length < 255
  · refine ⟨fun _ => by simp only [native_value, if_pos h], fun h2 => by omega, ?_⟩
    simp only [native_value, if_pos h]
    omega
  · refine ⟨fun h2 => absurd h2 h, fun _ => by simp only [native_value, if_neg h], ?_⟩
    simp only [native_value, if_neg h]
    rw [List.length_append, List.length_take]
    have hl : (pystr " <truncated>").length = 12 := by decide
    omega

/-- Witness for C10 at a 300-character value. -/
theorem c10_native_value_truncation_witness :
    native_value (List.replicate 300 'a') =
      (List.replicate 300 'a').take 242 ++ pystr " <truncated>" ∧
    (native_value (List.replicate 300 'a')).length ≤ 254 :=
  ⟨(c10_native_value_truncation _).2.1 (by rw [List.length_replicate]; omega),
   (c10_native_value_truncation _).2.2⟩

/-- C3: on a well-formed page-range string all of whose referenced pages
are within 1..len(pages), get_pages returns the referenced page texts
joined by a newline, each distinct page exactly once in ascending order
(the output is the join over the unique ascending enumeration `l` of the
referenced page set, whatever the order or repetition in the input). -/
theorem c3_get_pages_sorted_join
    (pages : List PyStr) (page_range : PyStr) (ps : List PagePart)
    (l : List Int)
    (hden : List.Forall₂ partDenotes (splitOnChar ',' page_range) ps)
    (hin : ∀ n ∈ refPages ps, 1 ≤ n ∧ n ≤ (pages.length : Int))
    (hne : refPages ps ≠ [])
    (hsort : l.Sorted (· < ·))
    (hmem : ∀ n : Int, n ∈ l ↔ n ∈ refPages ps) :
    get_pages pages page_range =
      .ok (List.intercalate ['\n']
        (l.map (fun page => pages.getD (page - 1).toNat []))) := by
  have hc := collect_pages_denotes hden
  have hne' : (refPages ps).dedup ≠ [] := by
    rw [Ne, List.dedup_eq_nil]; exact hne
  obtain ⟨mx, hmx⟩ : ∃ mx, listMax (refPages ps).dedup = some mx := by
    cases h : listMax (refPages ps).dedup with
    | none => exact absurd (listMax_eq_none.mp h) hne'
    | some m => exact ⟨m, rfl⟩
  obtain ⟨mn, hmn⟩ : ∃ mn, listMin (refPages ps).dedup = some mn := by
    cases h : listMin (refPages ps).dedup with
    | none => exact absurd (listMin_eq_none.mp h) hne'
    | some m => exact ⟨m, rfl⟩
  have hmx_in : mx ∈ refPages ps := List.mem_dedup.mp (listMax_mem hmx)
  have hmn_in : mn ∈ refPages ps := List.mem_dedup.mp (listMin_mem hmn)
  have hcond : ¬(mx > (pages.length : Int) ∨ mn < 1) := by
    push_neg
    exact ⟨(hin mx hmx_in).2, (hin mn hmn_in).1⟩
  have hnodupl : l.Nodup := hsort.nodup
  have hperm : List.Perm (List.insertionSort (· ≤ ·) (refPages ps).dedup) l := by
    refine (List.perm_insertionSort _ _).trans ?_
    exact (List.perm_ext_iff_of_nodup (List.nodup_dedup _) hnodupl).mpr
      (fun a => by rw [List.mem_dedup]; exact (hmem a).symm)
  have heq : List.insertionSort (· ≤ ·) (refPages ps).dedup = l :=
    List.eq_of_perm_of_sorted hperm (List.sorted_insertionSort _ _)
      hsort.le_of_lt
  simp only [get_pages, hc, hmx, hmn, if_neg hcond, heq]

/-- Witness for C3: "1-3,5" over five pages. -/
theorem c3_get_pages_sorted_join_witness :
    get_pages [pystr "a", pystr "b", pystr "c", pystr "d", pystr "e"]
        (pystr "1-3,5") =
      .ok (List.intercalate ['\n'] (([1, 2, 3, 5] : List Int).map
        (fun page =>
          [pystr "a", pystr "b", pystr "c", pystr "d",
            pystr "e"].getD (page - 1).toNat []))) := by
  apply c3_get_pages_sorted_join _ _ [PagePart.range 1 3, PagePart.num 5]
  · decide
  · decide
  · decide
  · decide
  · intro n
    rw [show refPages [PagePart.range 1 3, PagePart.num 5] =
      [1, 2, 3, 5] from by decide]

/-- C5: on a well-formed page-range string, get_pages raises the
ValueError "Page number out of range" exactly when some referenced page
number is below 1 or above the number of parsed pages.  (On a well-formed
string whose referenced page set is empty — only descending ranges — the
code raises a different ValueError, from `max()` on an empty set, so the
equivalence is about the specific out-of-range error.) -/
theorem c5_get_pages_out_of_range_iff
    (pages : List PyStr) (page_range : PyStr) (ps : List PagePart)
    (hden : List.Forall₂ partDenotes (splitOnChar ',' page_range) ps) :
    get_pages pages page_range =
        .error (.valueError "Page number out of range") ↔
      ∃ n ∈ refPages ps, n < 1 ∨ (pages.length : Int) < n := by
  have hc := collect_pages_denotes hden
  by_cases hne : (refPages ps).dedup = []
  · have hnil : refPages ps = [] := (List.dedup_eq_nil _).mp hne
    have hmaxnone : listMax (refPages ps).dedup = none := by
      rw [hne]; rfl
    have hminnone : listMin (refPages ps).dedup = none := by
      rw [hne]; rfl
    simp only [get_pages, hc, hmaxnone, hminnone]
    constructor
    · intro h
      exfalso
      injection h with h1
      injection h1 with h2
      exact absurd h2 (by decide)
    · rintro ⟨n, hn, -⟩
      rw [hnil] at hn
      cases hn
  · obtain ⟨mx, hmx⟩ : ∃ mx, listMax (refPages ps).dedup = some mx := by
      cases h : listMax (refPages ps).dedup with
      | none => exact absurd (listMax_eq_none.mp h) hne
      | some m => exact ⟨m, rfl⟩
    obtain ⟨mn, hmn⟩ : ∃ mn, listMin (refPages ps).dedup = some mn := by
      cases h : listMin (refPages ps).dedup with
      | none => exact absurd (listMin_eq_none.mp h) hne
      | some m => exact ⟨m, rfl⟩
    simp only [get_pages, hc, hmx, hmn]
    constructor
    · intro h
      by_cases hcond : mx > (pages.length : Int) ∨ mn < 1
      · rcases hcond with h1 | h1
        · exact ⟨mx, List.mem_dedup.mp (listMax_mem hmx), Or.inr h1⟩
        · exact ⟨mn, List.mem_dedup.mp (listMin_mem hmn), Or.inl h1⟩
      · rw [if_neg hcond] at h
        cases h
    · rintro ⟨n, hn, hor⟩
      have hcond : mx > (pages.length : Int) ∨ mn < 1 := by
        rcases hor with h1 | h1
        · exact Or.inr
            (lt_of_le_of_lt (listMin_le (List.mem_dedup.mpr hn) hmn) h1)
        · exact Or.inl
            (lt_of_lt_of_le h1 (le_listMax (List.mem_dedup.mpr hn) hmx))
      rw [if_pos hcond]

/-- Witness for C5: page 7 of a 2-page document is out of range. -/
theorem c5_get_pages_out_of_range_iff_witness :
    get_pages [pystr "a", pystr "b"] (pystr "1,7") =
      .error (.valueError "Page number out of range") := by
  rw [c5_get_pages_out_of_range_iff _ _ [PagePart.num 1, PagePart.num 7]
    (by decide)]
  exact ⟨7, by decide, Or.inr (by decide)⟩

/-- C1: when a stored file exists and both its "modified" timestamp and
its "md5_checksum" equal the newly determined modification timestamp and
the newly computed checksum, _process_pdf returns False with the pages
attribute untouched (no page text extracted) and no store write, and
_load_from_storage then restores the page texts from the persisted
store. -/
theorem c1_unchanged_document_skips_reparse
    (st : ScrapeState) (pdf : ParsedPdf) (checksum : String)
    (alt : Option (Int × ModifiedDateSource)) (upload : Bool)
    (sf : StoredFile) (m : Int) (ps : List PyStr)
    (hsf : st.stored_file = some sf)
    (hm : sf.modified = some m)
    (hc : sf.md5_checksum = some checksum)
    (hmod : (apply_alt (apply_metadata st pdf upload) alt).modified = some m)
    (hstore : st.hasStore = true)
    (hpages : sf.pages = some ps) :
    ∃ st₁ st₂,
      process_pdf st (.ok pdf) checksum alt upload = .ok (st₁, false, none) ∧
      st₁.pages = st.pages ∧
      load_from_storage st₁ (some sf) = .ok st₂ ∧
      st₂.pages = some ps := by
  have hne : sf ≠ StoredFile.empty := by
    intro h
    rw [h] at hm
    exact Option.noConfusion hm
  have hskip : skip_check (mid_state st pdf checksum alt upload) checksum =
      .ok true := by
    simp [skip_check, mid_state_stored_file, hsf, hne, hm,
      mid_state_modified, hmod, hc]
  refine ⟨mid_state st pdf checksum alt upload,
    { mid_state st pdf checksum alt upload with
      stored_file := some sf, pages := some ps, modified := some m,
      modified_source := sf.modified_source }, ?_, ?_, ?_, rfl⟩
  · simp only [process_pdf, hskip]
  · rw [mid_state_pages]
  · simp [load_from_storage, mid_state_hasStore, mid_state_md5, hstore, hm,
      hc, hpages]

/-- Witness for C1: a stored file matching the freshly parsed document. -/
theorem c1_unchanged_document_skips_reparse_witness :
    ∃ st₁ st₂,
      process_pdf
          { hasStore := true, pages := some [pystr "old"],
            stored_file := some { modified := some 5,
                                  md5_checksum := some "h",
                                  modified_source :=
                                    some ModifiedDateSource.first_check,
                                  pages := some [pystr "stored"] } }
          (.ok { metadata := none, page_texts := [pystr "new"] }) "h"
          (some (5, ModifiedDateSource.first_check)) false =
        .ok (st₁, false, none) ∧
      st₁.pages = some [pystr "old"] ∧
      load_from_storage st₁
          (some { modified := some 5,
                  md5_checksum := some "h",
                  modified_source := some ModifiedDateSource.first_check,
                  pages := some [pystr "stored"] }) = .ok st₂ ∧
      st₂.pages = some [pystr "stored"] := by
  exact c1_unchanged_document_skips_reparse _ _ _ _ _ _ 5 _
    rfl rfl rfl (by decide) rfl rfl

/-- C2: with a regex and a value template configured, the subentry value
is computed by page-range selection, then re.findall plus
index-or-all selection (index "-1" keeps the whole match list, any other
index picks the single match at that integer index), then template
rendering with the intermediate result bound to the template variable,
and the result is stored in the coordinator data under the subentry
key. -/
theorem c2_pipeline_order
    (findall : PyStr → PyStr → Except Unit (List PyStr))
    (render : PyStr → ScrapeValue → Except Unit PyStr)
    (pages : List PyStr) (key : String) (conf : SubentryConf)
    (rx idx tpl txt : PyStr) (ms : List PyStr) (sel : ScrapeValue)
    (out : PyStr) (data : List (String × ScrapeValue))
    (hrx : conf.regex_search = some rx) (hrx2 : rx ≠ [])
    (hpg : get_pages pages conf.pdf_pages = .ok txt)
    (hfa : findall rx txt = .ok ms) (hms : ms ≠ [])
    (hidx : conf.regex_match_index = some idx)
    (hsel : index_select idx ms = .ok sel)
    (htpl : conf.value_template = some tpl) (htpl2 : tpl ≠ [])
    (hr : render tpl sel = .ok out) :
    compute_subentry findall render pages key conf = .ok (.str out) ∧
    update_subentries findall render pages [(key, conf)] data =
      .ok (dict_set data key (.str out)) ∧
    (idx = pystr "-1" → sel = .list ms) ∧
    (∀ i : Int, pyInt idx = some i → 0 ≤ i → i.toNat < ms.length →
      idx ≠ pystr "-1" → sel = .str (ms.getD i.toNat [])) := by
  have h1 : compute_subentry findall render pages key conf =
      .ok (.str out) := by
    simp only [compute_subentry, hpg, hrx, hidx, htpl]
    simp [hrx2, hfa, hms, hsel, htpl2, hr]
  refine ⟨h1, by simp only [update_subentries, h1], ?_, ?_⟩
  · intro hidx1
    rw [hidx1] at hsel
    rw [index_select, if_neg (by simp)] at hsel
    injection hsel with h
    exact h.symm
  · intro i hpy hnn hlt hne1
    rw [index_select, if_pos hne1, hpy] at hsel
    have hget : pyListGet ms i = some (ms.getD i.toNat []) := by
      unfold pyListGet
      rw [if_pos hnn]
      rw [List.getD_eq_get?, List.get?_eq_get hlt]
      rfl
    simp only [hget] at hsel
    injection hsel with h
    exact h.symm

/-- Witness for C2: one page, a stub findall with two matches, index 1,
and a constant template renderer. -/
theorem c2_pipeline_order_witness :
    compute_subentry (fun _ _ => .ok [pystr "m0", pystr "m1"])
        (fun _ _ => .ok (pystr "R")) [pystr "ab"] "k"
        { pdf_pages := pystr "1", regex_search := some (pystr "x"),
          regex_match_index := some (pystr "1"),
          value_template := some (pystr "T") } =
      .ok (.str (pystr "R")) ∧
    update_subentries (fun _ _ => .ok [pystr "m0", pystr "m1"])
        (fun _ _ => .ok (pystr "R")) [pystr "ab"]
        [("k", { pdf_pages := pystr "1",
                 regex_search := some (pystr "x"),
                 regex_match_index := some (pystr "1"),
                 value_template := some (pystr "T") })] [] =
      .ok (dict_set [] "k" (.str (pystr "R"))) := by
  have h := c2_pipeline_order (fun _ _ => .ok [pystr "m0", pystr "m1"])
    (fun _ _ => .ok (pystr "R")) [pystr "ab"] "k"
    { pdf_pages := pystr "1", regex_search := some (pystr "x"),
      regex_match_index := some (pystr "1"),
      value_template := some (pystr "T") }
    (pystr "x") (pystr "1") (pystr "T") (pystr "ab")
    [pystr "m0", pystr "m1"] (.str (pystr "m1")) (pystr "R") []
    rfl (by decide) (by decide) rfl (by decide) rfl (by decide) rfl
    (by decide) rfl
  exact ⟨h.1, h.2.1⟩

/-- C9: with a regex configured and re.findall yielding no matches, the
subentry computation creates a "no_matches" repair issue for that
subentry and raises ConfigEntryError, failing the update cycle. -/
theorem c9_no_matches_raises
    (findall : PyStr → PyStr → Except Unit (List PyStr))
    (render : PyStr → ScrapeValue → Except Unit PyStr)
    (pages : List PyStr) (key : String) (conf : SubentryConf)
    (rx txt : PyStr) (upd : Except PdfExc Bool)
    (hrx : conf.regex_search = some rx) (hrx2 : rx ≠ [])
    (hpg : get_pages pages conf.pdf_pages = .ok txt)
    (hfa : findall rx txt = .ok []) :
    compute_subentry findall render pages key conf =
      .error (.config_entry_error no_matches_key (some key)) ∧
    async_update_data findall render pages [(key, conf)] [] upd =
      .error (.config_entry_error no_matches_key (some key)) := by
  have h1 : compute_subentry findall render pages key conf =
      .error (.config_entry_error no_matches_key (some key)) := by
    simp only [compute_subentry, hpg, hrx]
    simp [hrx2, hfa]
  exact ⟨h1, by simp [async_update_data, update_subentries, h1]⟩

/-- Witness for C9: a regex with an empty findall result. -/
theorem c9_no_matches_raises_witness :
    compute_subentry (fun _ _ => .ok []) (fun _ _ => .ok (pystr "R"))
        [pystr "ab"] "k"
        { pdf_pages := pystr "1", regex_search := some (pystr "x") } =
      .error (.config_entry_error no_matches_key (some "k")) ∧
    async_update_data (fun _ _ => .ok []) (fun _ _ => .ok (pystr "R"))
        [pystr "ab"]
        [("k", { pdf_pages := pystr "1",
                 regex_search := some (pystr "x") })] [] (.ok true) =
      .error (.config_entry_error no_matches_key (some "k")) :=
  c9_no_matches_raises _ _ _ _ _ _ (pystr "ab") _ rfl (by decide) (by decide)
    rfl

/-- C8: a failed HTTP GET makes PDFScrapeHTTP.update raise HTTPError, and
the coordinator turns an HTTPError (or PDFParseError) from the update
into a pdf_error repair issue plus a ConfigEntryError. -/
theorem c8_http_failure_surfaced
    (st : ScrapeState) (storeContent : Option StoredFile) (now : Int)
    (findall : PyStr → PyStr → Except Unit (List PyStr))
    (render : PyStr → ScrapeValue → Except Unit PyStr)
    (pages : List PyStr) (subs : List (String × SubentryConf))
    (data : List (String × ScrapeValue)) (hdata : data ≠ []) :
    http_update st storeContent (.error ()) now = .error .httpError ∧
    async_update_data findall render pages subs data (.error .httpError) =
      .error (.config_entry_error pdf_error_key none) ∧
    async_update_data findall render pages subs data
        (.error .pdfParseError) =
      .error (.config_entry_error pdf_error_key none) := by
  refine ⟨rfl, ?_, ?_⟩ <;> simp [async_update_data, hdata]

/-- Witness for C8. -/
theorem c8_http_failure_surfaced_witness :
    http_update { hasStore := false } none (.error ()) 0 =
      .error .httpError ∧
    async_update_data (fun _ _ => .ok []) (fun _ _ => .ok [])
        [] [] [("k", .str [])] (.error .httpError) =
      .error (.config_entry_error pdf_error_key none) ∧
    async_update_data (fun _ _ => .ok []) (fun _ _ => .ok [])
        [] [] [("k", .str [])] (.error .pdfParseError) =
      .error (.config_entry_error pdf_error_key none) :=
  c8_http_failure_surfaced _ _ _ _ _ _ _ _ (by decide)

/-- C4 counter-evidence: an out-of-range page makes get_pages raise
ValueError, but the subentry handler catches only IndexError and the
outer try only HTTPError/PDFParseError, so the error escapes
_async_update_data with no repair issue and no ConfigEntryError (the
claim and the dedicated index_error handler expect it to be caught). -/
theorem c4_out_of_range_page_error_uncaught :
    compute_subentry (fun _ _ => .ok []) (fun _ _ => .ok [])
        [pystr "a"] "sub1" { pdf_pages := pystr "2" } =
      .error (.uncaught_value_error "Page number out of range") ∧
    async_update_data (fun _ _ => .ok []) (fun _ _ => .ok [])
        [pystr "a"] [("sub1", { pdf_pages := pystr "2" })] [] (.ok true) =
      .error (.uncaught_value_error "Page number out of range") := by
  constructor <;> rfl

/-- C7 counter-evidence: with a standard Last-Modified header present
(and hence no "late-modified" header, the misspelled key the code looks
up) and PDF metadata lacking a modification date, PDFScrapeHTTP.update
stamps the document with the current time and FIRST_CHECK, not with the
parsed header value and HTTP_HEADER; and were a "late-modified" header
actually present, the call to the nonexistent datetime.strptime would
raise AttributeError. -/
theorem c7_last_modified_header_not_used :
    http_update { hasStore := false } none
        (.ok { last_modified := some "Wed, 21 Oct 2015 07:28:00 GMT",
               parsed := .ok { metadata := some {},
                               page_texts := [pystr "p"] },
               checksum := "c" }) 1700000000 =
      .ok ({ hasStore := false, pages := some [pystr "p"],
             modified := some 1700000000,
             modified_source := some ModifiedDateSource.first_check,
             metadata_name := none, md5_checksum := some "c",
             stored_file := none }, true, none) ∧
    http_update { hasStore := false } none
        (.ok { late_modified := some "Wed, 21 Oct 2015 07:28:00 GMT",
               parsed := .ok { metadata := some {},
                               page_texts := [pystr "p"] },
               checksum := "c" }) 1700000000 =
      .error .attributeError := by
  constructor <;> rfl
